import Mathlib

/-!
Verification of the selene-backend pairing-code issuance endpoint
(`public_api/endpoints/device_code.py`) and of the ETag-based
conditional-retrieval protocol for device skill settings, against a
shallow embedding in Lean 4.

The key/value cache collaborator (`selene.util.cache`) is modelled as an
association list with the atomic `set if not exists with expiration`
primitive described by the interface contract; randomness (`random.choice`,
`uuid4`/sha512) is modelled by passing the drawn values in explicitly.
-/

namespace Selene

/-- The number of seconds in a day, `ONE_DAY = 86400` in `device_code.py`. -/
def ONE_DAY : Nat := 86400

/-- `DeviceCodeEndpoint.allowed_characters`: the 22-symbol alphabet used for
pairing codes, chosen to avoid ambiguous characters. -/
def allowed_characters : String := "ACEFHJKLMNPRTUVWXY3479"

/-- The character list underlying `allowed_characters`. -/
def allowedList : List Char := allowed_characters.toList

/-- Modelled from the spec: `selene.util.cache.DEVICE_PAIRING_CODE_KEY`
(the module is not among the sources) is "a cache key namespaced to pairing
codes and parameterized by `code`": a fixed namespace prefix followed by the
pairing code. -/
def DEVICE_PAIRING_CODE_KEY (pairing_code : String) : String :=
  "pairing.code:" ++ pairing_code

/-- The key/value cache collaborator state: a list of
(key, value, remaining TTL in seconds) entries. -/
abbrev Cache : Type := List (String × String × Nat)

/-- Whether the cache currently holds an entry for `key`. -/
def hasKey (cache : Cache) (key : String) : Bool :=
  cache.any (fun e => e.1 = key)

/-- The value (and TTL) stored in the cache under `key`, if any. -/
def lookupCache (cache : Cache) (key : String) : Option (String × Nat) :=
  match cache.find? (fun e => e.1 = key) with
  | some e => some e.2
  | none => none

/-- Modelled from the spec: the cache collaborator's atomic
`SetIfAbsentWithExpiration(key, value, ttlSeconds) -> bool` primitive
(`cache.set_if_not_exists_with_expiration` in `device_code.py`): writes the
entry only when the key is absent and reports whether it wrote. -/
def setIfNotExists (cache : Cache) (key value : String) (ttl : Nat) :
    Cache × Bool :=
  if hasKey cache key then (cache, false)
  else ((key, value, ttl) :: cache, true)

/-- `random.choice(self.allowed_characters)`: one uniform draw, given the
drawn index. -/
def randomChoice (i : Fin 22) : Char :=
  allowedList.get (i.cast (by decide))

/-- `DeviceCodeEndpoint._generate_pairing_code`: joins six independent
draws from `allowed_characters`; the six drawn indices are passed in. -/
def generate_pairing_code (draws : Fin 6 → Fin 22) : String :=
  String.mk ((List.finRange 6).map (fun i => randomChoice (draws i)))

/-- The sixteen lowercase hexadecimal digits used by Python's `hexdigest`. -/
def hexChars : List Char := "0123456789abcdef".toList

/-- Hex-encoding of one byte: two lowercase hex digits. -/
def byteToHex (b : Fin 256) : List Char :=
  [hexChars.getD (b.val / 16) '0', hexChars.getD (b.val % 16) '0']

/-- `DeviceCodeEndpoint._generate_token`: the SHA512 digest of a
uuid4-derived string, hex-encoded.  The 512-bit digest produced by
`hashlib.sha512` is passed in as its 64 bytes; the function performs the
`hexdigest` encoding. -/
def generate_token (digest : List (Fin 256)) : String :=
  String.mk ((digest.map byteToHex).flatten)

/-- The response dictionary built by `DeviceCodeEndpoint._build_response`:
`state`, `token`, `expiration` are set before the retry loop and `code` is
set inside it. -/
structure ResponseData where
  state : String
  token : String
  expiration : Nat
  code : String
deriving DecidableEq, Repr

/-- `json.dumps(response_data)` for the response dictionary, in Python dict
insertion order (state, token, expiration, code). -/
def serializeResponse (rd : ResponseData) : String :=
  "\x7b\"state\": \"" ++ rd.state ++ "\", \"token\": \"" ++ rd.token ++
    "\", \"expiration\": " ++ toString rd.expiration ++ ", \"code\": \"" ++
    rd.code ++ "\"\x7d"

/-- The `while not pairing_code_added` loop of
`DeviceCodeEndpoint._build_response`: for each successive generated code,
attempt the conditional write of the serialized response under the
code-derived key with TTL `ONE_DAY`; on failure discard the code and retry
with the next one.  The codes drawn by successive loop iterations are passed
in as a list; `none` means every supplied draw collided (the Python loop
would keep drawing). -/
def buildResponseLoop (st tok : String) (cache : Cache) :
    List String → Option (ResponseData × Cache)
  | [] => none
  | code :: rest =>
    let rd : ResponseData := ⟨st, tok, ONE_DAY, code⟩
    match setIfNotExists cache (DEVICE_PAIRING_CODE_KEY code)
        (serializeResponse rd) ONE_DAY with
    | (cache', true) => some (rd, cache')
    | (cache', false) => buildResponseLoop st tok cache' rest

/-- `DeviceCodeEndpoint._build_response`: computes `token` once from the
sha512 digest, then runs the retry loop over the successive pairing-code
draws. -/
def build_response (st : String) (digest : List (Fin 256))
    (draws : List (Fin 6 → Fin 22)) (cache : Cache) :
    Option (ResponseData × Cache) :=
  buildResponseLoop st (generate_token digest) cache
    (draws.map generate_pairing_code)

/-- The keys currently present in a cache. -/
def cacheKeys (cache : Cache) : List String := cache.map (fun e => e.1)

/-- An interleaving of the conditional writes performed by concurrently
executing `_build_response` calls: each element of `ops` is one atomic
`setIfNotExists` attempt (key, value); returns the per-attempt outcomes and
the final cache. -/
def runWrites (cache : Cache) : List (String × String) → List Bool × Cache
  | [] => ([], cache)
  | (k, v) :: rest =>
    match setIfNotExists cache k v ONE_DAY with
    | (cache', ok) =>
      let r := runWrites cache' rest
      (ok :: r.1, r.2)

/-- The conditional writes performed on behalf of a list of pairing
sessions (pairing code paired with its serialized session value): each
session's write goes to the `DEVICE_PAIRING_CODE_KEY` of its code. -/
def pairingWrites (sessions : List (String × String)) :
    List (String × String) :=
  sessions.map (fun s => (DEVICE_PAIRING_CODE_KEY s.1, s.2))

/-- Modelled from the spec: the result of a `Read` on the
ConditionalStateCache — either `NotModified`, which transfers no payload
body, or the full current payload together with its fingerprint (the
fingerprint is an opaque token, modelled as a natural number). -/
inductive ReadResult where
  | notModified : ReadResult
  | full (payload : String) (fingerprint : Nat) : ReadResult
deriving DecidableEq, Repr

/-- Modelled from the spec: the ConditionalStateCache state (the
`selene.api.etag` manager is not among the sources).  `entries` maps each
resource key to its cached payload and fingerprint; `counter` is the source
of fresh fingerprints so that every freshly issued fingerprint differs from
all previously issued ones. -/
structure CRState where
  entries : List (String × String × Nat)
  counter : Nat
deriving DecidableEq, Repr

/-- The cached (payload, fingerprint) pair for a resource key, if any. -/
def lookupEntry (s : CRState) (key : String) : Option (String × Nat) :=
  match s.entries.find? (fun e => e.1 = key) with
  | some e => some e.2
  | none => none

/-- Modelled from the spec: every stored fingerprint was issued from a
counter value strictly below the current one (so fresh fingerprints never
alias stored ones). -/
def WFState (s : CRState) : Prop :=
  ∀ e ∈ s.entries, e.2.2 < s.counter

/-- Modelled from the spec:
`Read(resourceKey, callerFingerprint) -> NotModified | (Payload, fingerprint)`.
Fetches the stored fingerprint; if the caller's fingerprint is present and
equal, returns `NotModified` with no payload.  Otherwise returns the full
payload with its fingerprint.  On a cache miss the call is forwarded to the
authoritative `source`, cached under a fresh fingerprint, and returned as a
full payload. -/
def read (source : String → String) (s : CRState) (key : String)
    (callerFp : Option Nat) : ReadResult × CRState :=
  match lookupEntry s key with
  | some pf =>
    if callerFp = some pf.2 then (ReadResult.notModified, s)
    else (ReadResult.full pf.1 pf.2, s)
  | none =>
    let payload := source key
    (ReadResult.full payload s.counter,
      ⟨(key, payload, s.counter) :: s.entries, s.counter + 1⟩)

/-- Modelled from the spec: `Invalidate(resourceKey)` clears the cached
fingerprint (and payload) for the key, forcing the next `Read` to recompute
from the authoritative source. -/
def invalidate (s : CRState) (key : String) : CRState :=
  ⟨s.entries.filter (fun e => ¬ e.1 = key), s.counter⟩

/-! ### Helper lemmas -/

theorem getD_mem_of_default_mem {l : List Char} {d : Char} (hd : d ∈ l)
    (n : Nat) : l.getD n d ∈ l := by
  rcases Nat.lt_or_ge n l.length with h | h
  · rw [List.getD_eq_getElem l d h]
    exact List.getElem_mem h
  · rw [List.getD_eq_default l d h]
    exact hd

theorem byteToHex_length (b : Fin 256) : (byteToHex b).length = 2 := rfl

theorem byteToHex_mem (b : Fin 256) : ∀ c ∈ byteToHex b, c ∈ hexChars := by
  intro c hc
  simp only [byteToHex, List.mem_cons, List.not_mem_nil, or_false] at hc
  rcases hc with h | h <;> rw [h] <;>
    exact getD_mem_of_default_mem (by decide) _

theorem generate_token_length (digest : List (Fin 256)) :
    (generate_token digest).length = 2 * digest.length := by
  induction digest with
  | nil => rfl
  | cons b rest ih =>
    simp only [generate_token, List.map_cons, List.flatten_cons] at ih ⊢
    simp only [String.length_mk, List.length_append, byteToHex_length,
      List.length_cons] at ih ⊢
    omega

/-! ### C2: pairing-code format -/

/-- C2: every code produced by `_generate_pairing_code` is a string of
exactly 6 characters, each drawn from the 22-symbol alphabet
`ACEFHJKLMNPRTUVWXY3479`. -/
theorem pairing_code_format (draws : Fin 6 → Fin 22) :
    (generate_pairing_code draws).length = 6 ∧
    ∀ c ∈ (generate_pairing_code draws).toList, c ∈ allowed_characters.toList := by
  constructor
  · simp [generate_pairing_code, String.length]
  · intro c hc
    simp only [generate_pairing_code, String.toList, List.mem_map] at hc
    obtain ⟨i, _, hi⟩ := hc
    rw [← hi]
    exact List.get_mem _ _ _

/-! ### C4: token format -/

/-- C4: for every 64-byte (512-bit) digest, the token produced by
`_generate_token` is a 128-character string of lowercase hexadecimal
digits. -/
theorem token_format (digest : List (Fin 256)) (h : digest.length = 64) :
    (generate_token digest).length = 128 ∧
    ∀ c ∈ (generate_token digest).toList, c ∈ hexChars := by
  constructor
  · rw [generate_token_length, h]
  · intro c hc
    simp only [generate_token, String.toList, List.mem_flatten, List.mem_map] at hc
    obtain ⟨sub, ⟨b, _, hb⟩, hcs⟩ := hc
    exact byteToHex_mem b c (hb ▸ hcs)

/-- Witness for C4 at the all-zero 64-byte digest. -/
theorem token_format_witness :
    (List.replicate 64 (0 : Fin 256)).length = 64 ∧
    ((generate_token (List.replicate 64 (0 : Fin 256))).length = 128 ∧
      ∀ c ∈ (generate_token (List.replicate 64 (0 : Fin 256))).toList,
        c ∈ hexChars) :=
  ⟨by decide, token_format _ (by decide)⟩

/-! ### The retry loop of `_build_response` -/

theorem buildResponseLoop_collision (st tok : String) (cache : Cache)
    (code : String) (rest : List String)
    (hk : hasKey cache (DEVICE_PAIRING_CODE_KEY code) = true) :
    buildResponseLoop st tok cache (code :: rest) =
      buildResponseLoop st tok cache rest := by
  simp [buildResponseLoop, setIfNotExists, hk]

theorem buildResponseLoop_free (st tok : String) (cache : Cache)
    (code : String) (rest : List String)
    (hk : hasKey cache (DEVICE_PAIRING_CODE_KEY code) = false) :
    buildResponseLoop st tok cache (code :: rest) =
      some (⟨st, tok, ONE_DAY, code⟩,
        (DEVICE_PAIRING_CODE_KEY code,
          serializeResponse ⟨st, tok, ONE_DAY, code⟩, ONE_DAY) :: cache) := by
  simp [buildResponseLoop, setIfNotExists, hk]

theorem buildResponseLoop_some (st tok : String) (cache : Cache)
    (codes : List String) (rd : ResponseData) (cache' : Cache)
    (h : buildResponseLoop st tok cache codes = some (rd, cache')) :
    rd.state = st ∧ rd.token = tok ∧ rd.expiration = ONE_DAY ∧
    rd.code ∈ codes ∧
    hasKey cache (DEVICE_PAIRING_CODE_KEY rd.code) = false ∧
    cache' = (DEVICE_PAIRING_CODE_KEY rd.code, serializeResponse rd,
      ONE_DAY) :: cache := by
  induction codes with
  | nil => simp [buildResponseLoop] at h
  | cons code rest ih =>
    by_cases hk : hasKey cache (DEVICE_PAIRING_CODE_KEY code) = true
    · rw [buildResponseLoop_collision st tok cache code rest hk] at h
      obtain ⟨h1, h2, h3, h4, h5, h6⟩ := ih h
      exact ⟨h1, h2, h3, List.mem_cons_of_mem _ h4, h5, h6⟩
    · rw [Bool.not_eq_true] at hk
      rw [buildResponseLoop_free st tok cache code rest hk] at h
      obtain ⟨hrd, hc⟩ := Prod.mk.injEq .. ▸ Option.some.injEq .. ▸ h
      subst hrd
      exact ⟨rfl, rfl, rfl, List.mem_cons_self .., hk, hc.symm⟩

theorem buildResponseLoop_isSome (st tok : String) (cache : Cache)
    (codes : List String) :
    (buildResponseLoop st tok cache codes).isSome = true ↔
      ∃ c ∈ codes, hasKey cache (DEVICE_PAIRING_CODE_KEY c) = false := by
  induction codes with
  | nil => simp [buildResponseLoop]
  | cons code rest ih =>
    by_cases hk : hasKey cache (DEVICE_PAIRING_CODE_KEY code) = true
    · rw [buildResponseLoop_collision st tok cache code rest hk, ih]
      simp only [List.mem_cons]
      constructor
      · rintro ⟨c, hc, hfree⟩
        exact ⟨c, Or.inr hc, hfree⟩
      · rintro ⟨c, hc | hc, hfree⟩
        · rw [hc] at hfree
          rw [hk] at hfree
          cases hfree
        · exact ⟨c, hc, hfree⟩
    · rw [Bool.not_eq_true] at hk
      rw [buildResponseLoop_free st tok cache code rest hk]
      simp only [Option.isSome_some, true_iff]
      exact ⟨code, List.mem_cons_self .., hk⟩

/-! ### C3: retry on collision, unbounded -/

/-- C3: when the conditional write of a generated code fails because the
key is occupied, the loop discards that code and retries with the next
draw (first conjunct); it produces a result exactly when some attempted
code's key is free, i.e. it returns only when some attempt's write
succeeds (second conjunct); and no number of attempts suffices in general:
for every `n` there are a cache and `n` draws on which all `n` attempts
collide (third conjunct). -/
theorem retry_on_collision :
    (∀ (st tok : String) (cache : Cache) (code : String)
        (rest : List String),
      hasKey cache (DEVICE_PAIRING_CODE_KEY code) = true →
      buildResponseLoop st tok cache (code :: rest) =
        buildResponseLoop st tok cache rest) ∧
    (∀ (st tok : String) (cache : Cache) (codes : List String),
      (buildResponseLoop st tok cache codes).isSome = true ↔
        ∃ c ∈ codes, hasKey cache (DEVICE_PAIRING_CODE_KEY c) = false) ∧
    (∀ n : Nat, ∃ (cache : Cache) (codes : List String),
      codes.length = n ∧ buildResponseLoop "s" "t" cache codes = none) := by
  refine ⟨buildResponseLoop_collision, buildResponseLoop_isSome, fun n => ?_⟩
  refine ⟨[(DEVICE_PAIRING_CODE_KEY "AAAAAA", "x", ONE_DAY)],
    List.replicate n "AAAAAA", List.length_replicate .., ?_⟩
  rw [← Option.not_isSome_iff_eq_none, buildResponseLoop_isSome]
  rintro ⟨c, hc, hfree⟩
  rw [List.eq_of_mem_replicate hc] at hfree
  revert hfree
  decide

/-! ### C5: response fields and storage -/

/-- C5: a successful `_build_response` call returns `state` exactly as
supplied and `expiration = 86400`, and stores the serialized session under
the code-parameterized cache key with a TTL of 86400 seconds. -/
theorem response_fields_and_storage (st : String) (digest : List (Fin 256))
    (draws : List (Fin 6 → Fin 22)) (cache : Cache) (rd : ResponseData)
    (cache' : Cache)
    (h : build_response st digest draws cache = some (rd, cache')) :
    rd.state = st ∧ rd.expiration = 86400 ∧
    cache' = (DEVICE_PAIRING_CODE_KEY rd.code, serializeResponse rd,
      86400) :: cache := by
  obtain ⟨h1, _, h3, _, _, h6⟩ := buildResponseLoop_some _ _ _ _ _ _ h
  exact ⟨h1, h3, h6⟩

/-- Witness for C5 on a concrete successful run. -/
theorem response_fields_and_storage_witness :
    build_response "abc-state" [(0 : Fin 256)] [fun _ => (0 : Fin 22)] [] =
      some (⟨"abc-state", "00", 86400, "AAAAAA"⟩,
        [(DEVICE_PAIRING_CODE_KEY "AAAAAA",
          serializeResponse ⟨"abc-state", "00", 86400, "AAAAAA"⟩, 86400)]) ∧
    ((⟨"abc-state", "00", 86400, "AAAAAA"⟩ : ResponseData).state =
        "abc-state" ∧
      (⟨"abc-state", "00", 86400, "AAAAAA"⟩ : ResponseData).expiration =
        86400 ∧
      [(DEVICE_PAIRING_CODE_KEY "AAAAAA",
        serializeResponse ⟨"abc-state", "00", 86400, "AAAAAA"⟩, 86400)] =
        (DEVICE_PAIRING_CODE_KEY
            (⟨"abc-state", "00", 86400, "AAAAAA"⟩ : ResponseData).code,
          serializeResponse ⟨"abc-state", "00", 86400, "AAAAAA"⟩,
          86400) :: []) :=
  ⟨by decide,
    response_fields_and_storage "abc-state" [(0 : Fin 256)]
      [fun _ => (0 : Fin 22)] [] ⟨"abc-state", "00", 86400, "AAAAAA"⟩
      [(DEVICE_PAIRING_CODE_KEY "AAAAAA",
        serializeResponse ⟨"abc-state", "00", 86400, "AAAAAA"⟩, 86400)]
      (by decide)⟩

/-! ### C9: stored session self-consistency -/

/-- C9: the value a successful `_build_response` call stores in the cache
is exactly the serialization of the returned response, found under the
cache key derived from the returned response's own `code` field. -/
theorem stored_session_self_consistency (st : String)
    (digest : List (Fin 256)) (draws : List (Fin 6 → Fin 22))
    (cache : Cache) (rd : ResponseData) (cache' : Cache)
    (h : build_response st digest draws cache = some (rd, cache')) :
    lookupCache cache' (DEVICE_PAIRING_CODE_KEY rd.code) =
      some (serializeResponse rd, ONE_DAY) := by
  obtain ⟨_, _, _, _, _, h6⟩ := buildResponseLoop_some _ _ _ _ _ _ h
  rw [h6]
  simp [lookupCache, List.find?]

/-- Witness for C9 on a concrete successful run. -/
theorem stored_session_self_consistency_witness :
    build_response "abc-state" [(0 : Fin 256)] [fun _ => (0 : Fin 22)] [] =
      some (⟨"abc-state", "00", 86400, "AAAAAA"⟩,
        [(DEVICE_PAIRING_CODE_KEY "AAAAAA",
          serializeResponse ⟨"abc-state", "00", 86400, "AAAAAA"⟩, 86400)]) ∧
    lookupCache
        [(DEVICE_PAIRING_CODE_KEY "AAAAAA",
          serializeResponse ⟨"abc-state", "00", 86400, "AAAAAA"⟩, 86400)]
        (DEVICE_PAIRING_CODE_KEY
          (⟨"abc-state", "00", 86400, "AAAAAA"⟩ : ResponseData).code) =
      some (serializeResponse ⟨"abc-state", "00", 86400, "AAAAAA"⟩,
        ONE_DAY) :=
  ⟨by decide,
    stored_session_self_consistency "abc-state" [(0 : Fin 256)]
      [fun _ => (0 : Fin 22)] [] ⟨"abc-state", "00", 86400, "AAAAAA"⟩
      [(DEVICE_PAIRING_CODE_KEY "AAAAAA",
        serializeResponse ⟨"abc-state", "00", 86400, "AAAAAA"⟩, 86400)]
      (by decide)⟩

/-! ### C10: fields fixed across retries -/

/-- C10: `state`, `token` and `expiration` are computed before the retry
loop and never modified by it — any two successful runs from the same
pre-loop data agree on them (only `code` depends on the draws and on the
cache contents), and the returned token is always the hex digest computed
before the loop. -/
theorem fields_fixed_across_retries (st : String) (digest : List (Fin 256))
    (draws₁ draws₂ : List (Fin 6 → Fin 22)) (cache₁ cache₂ : Cache)
    (rd₁ rd₂ : ResponseData) (cache₁' cache₂' : Cache)
    (h₁ : build_response st digest draws₁ cache₁ = some (rd₁, cache₁'))
    (h₂ : build_response st digest draws₂ cache₂ = some (rd₂, cache₂')) :
    rd₁.token = generate_token digest ∧
    rd₂.token = generate_token digest ∧
    rd₁.token = rd₂.token ∧ rd₁.state = rd₂.state ∧
    rd₁.expiration = rd₂.expiration := by
  obtain ⟨a1, a2, a3, _⟩ := buildResponseLoop_some _ _ _ _ _ _ h₁
  obtain ⟨b1, b2, b3, _⟩ := buildResponseLoop_some _ _ _ _ _ _ h₂
  refine ⟨a2, b2, ?_, ?_, ?_⟩
  · rw [a2, b2]
  · rw [a1, b1]
  · rw [a3, b3]

/-- Witness for C10: a collision-free run and a run with one collision
return the same `state`, `token` and `expiration`. -/
theorem fields_fixed_across_retries_witness :
    build_response "abc-state" [(0 : Fin 256)] [fun _ => (0 : Fin 22)] [] =
      some (⟨"abc-state", "00", 86400, "AAAAAA"⟩,
        [(DEVICE_PAIRING_CODE_KEY "AAAAAA",
          serializeResponse ⟨"abc-state", "00", 86400, "AAAAAA"⟩, 86400)]) ∧
    build_response "abc-state" [(0 : Fin 256)]
        [fun _ => (0 : Fin 22), fun _ => (1 : Fin 22)]
        [(DEVICE_PAIRING_CODE_KEY "AAAAAA", "x", 86400)] =
      some (⟨"abc-state", "00", 86400, "CCCCCC"⟩,
        [(DEVICE_PAIRING_CODE_KEY "CCCCCC",
          serializeResponse ⟨"abc-state", "00", 86400, "CCCCCC"⟩, 86400),
         (DEVICE_PAIRING_CODE_KEY "AAAAAA", "x", 86400)]) ∧
    ((⟨"abc-state", "00", 86400, "AAAAAA"⟩ : ResponseData).token =
        generate_token [(0 : Fin 256)] ∧
      (⟨"abc-state", "00", 86400, "CCCCCC"⟩ : ResponseData).token =
        generate_token [(0 : Fin 256)] ∧
      (⟨"abc-state", "00", 86400, "AAAAAA"⟩ : ResponseData).token =
        (⟨"abc-state", "00", 86400, "CCCCCC"⟩ : ResponseData).token ∧
      (⟨"abc-state", "00", 86400, "AAAAAA"⟩ : ResponseData).state =
        (⟨"abc-state", "00", 86400, "CCCCCC"⟩ : ResponseData).state ∧
      (⟨"abc-state", "00", 86400, "AAAAAA"⟩ : ResponseData).expiration =
        (⟨"abc-state", "00", 86400, "CCCCCC"⟩ : ResponseData).expiration) :=
  ⟨by decide, by decide,
    fields_fixed_across_retries "abc-state" [(0 : Fin 256)]
      [fun _ => (0 : Fin 22)] [fun _ => (0 : Fin 22), fun _ => (1 : Fin 22)]
      [] [(DEVICE_PAIRING_CODE_KEY "AAAAAA", "x", 86400)]
      ⟨"abc-state", "00", 86400, "AAAAAA"⟩
      ⟨"abc-state", "00", 86400, "CCCCCC"⟩
      [(DEVICE_PAIRING_CODE_KEY "AAAAAA",
        serializeResponse ⟨"abc-state", "00", 86400, "AAAAAA"⟩, 86400)]
      [(DEVICE_PAIRING_CODE_KEY "CCCCCC",
        serializeResponse ⟨"abc-state", "00", 86400, "CCCCCC"⟩, 86400),
       (DEVICE_PAIRING_CODE_KEY "AAAAAA", "x", 86400)]
      (by decide) (by decide)⟩

/-! ### Interleaved conditional writes -/

theorem hasKey_iff (cache : Cache) (k : String) :
    hasKey cache k = true ↔ k ∈ cacheKeys cache := by
  simp only [hasKey, List.any_eq_true, decide_eq_true_eq, cacheKeys,
    List.mem_map]

theorem runWrites_cons_occupied (cache : Cache) (k0 v0 : String)
    (rest : List (String × String)) (h0 : hasKey cache k0 = true) :
    runWrites cache ((k0, v0) :: rest) =
      (false :: (runWrites cache rest).1, (runWrites cache rest).2) := by
  simp [runWrites, setIfNotExists, h0]

theorem runWrites_cons_free (cache : Cache) (k0 v0 : String)
    (rest : List (String × String)) (h0 : hasKey cache k0 = false) :
    runWrites cache ((k0, v0) :: rest) =
      (true :: (runWrites ((k0, v0, ONE_DAY) :: cache) rest).1,
        (runWrites ((k0, v0, ONE_DAY) :: cache) rest).2) := by
  simp [runWrites, setIfNotExists, h0]

theorem runWrites_success_ne (k : String) (ops : List (String × String)) :
    ∀ (cache : Cache), hasKey cache k = true →
      ∀ (m : Nat) (hm : m < ops.length),
        (runWrites cache ops).1.getD m false = true →
        (ops.get ⟨m, hm⟩).1 ≠ k := by
  induction ops with
  | nil => intro cache _ m hm; simp at hm
  | cons op rest ih =>
    obtain ⟨k0, v0⟩ := op
    intro cache hk m hm hsucc
    by_cases h0 : hasKey cache k0 = true
    · rw [runWrites_cons_occupied cache k0 v0 rest h0] at hsucc
      match m with
      | 0 => simp at hsucc
      | m' + 1 =>
        simp only [List.getD_cons_succ] at hsucc
        have hm' : m' < rest.length := by
          simpa using Nat.lt_of_succ_lt_succ hm
        exact ih cache hk m' hm' hsucc
    · rw [Bool.not_eq_true] at h0
      rw [runWrites_cons_free cache k0 v0 rest h0] at hsucc
      match m with
      | 0 =>
        intro hkk
        have hkk' : k0 = k := hkk
        rw [hkk'] at h0
        rw [h0] at hk
        cases hk
      | m' + 1 =>
        have hk' : hasKey ((k0, v0, ONE_DAY) :: cache) k = true := by
          simp only [hasKey, List.any_cons, Bool.or_eq_true]
          exact Or.inr hk
        simp only [List.getD_cons_succ] at hsucc
        have hm' : m' < rest.length := by
          simpa using Nat.lt_of_succ_lt_succ hm
        exact ih ((k0, v0, ONE_DAY) :: cache) hk' m' hm' hsucc

theorem runWrites_success_pairwise (ops : List (String × String)) :
    ∀ (cache : Cache) (i j : Nat) (hij : i < j) (hj : j < ops.length),
      (runWrites cache ops).1.getD i false = true →
      (runWrites cache ops).1.getD j false = true →
      (ops.get ⟨i, Nat.lt_trans hij hj⟩).1 ≠ (ops.get ⟨j, hj⟩).1 := by
  induction ops with
  | nil => intro cache i j hij hj; simp at hj
  | cons op rest ih =>
    obtain ⟨k0, v0⟩ := op
    intro cache i j hij hj hi hjs
    by_cases h0 : hasKey cache k0 = true
    · rw [runWrites_cons_occupied cache k0 v0 rest h0] at hi hjs
      match i, j with
      | 0, _ => simp at hi
      | i' + 1, j' + 1 =>
        simp only [List.getD_cons_succ] at hi hjs
        have hj' : j' < rest.length := by
          simpa using Nat.lt_of_succ_lt_succ hj
        exact ih cache i' j' (Nat.lt_of_succ_lt_succ hij) hj' hi hjs
    · rw [Bool.not_eq_true] at h0
      rw [runWrites_cons_free cache k0 v0 rest h0] at hi hjs
      match i, j with
      | 0, j' + 1 =>
        have hk' : hasKey ((k0, v0, ONE_DAY) :: cache) k0 = true := by
          simp [hasKey]
        simp only [List.getD_cons_succ] at hjs
        have hj' : j' < rest.length := by
          simpa using Nat.lt_of_succ_lt_succ hj
        have hne := runWrites_success_ne k0 rest ((k0, v0, ONE_DAY) :: cache)
          hk' j' hj' hjs
        intro hEq
        simp only [List.get_cons_succ] at hEq
        exact hne hEq.symm
      | i' + 1, j' + 1 =>
        simp only [List.getD_cons_succ] at hi hjs
        have hj' : j' < rest.length := by
          simpa using Nat.lt_of_succ_lt_succ hj
        exact ih ((k0, v0, ONE_DAY) :: cache) i' j'
          (Nat.lt_of_succ_lt_succ hij) hj' hi hjs

theorem runWrites_nodup (ops : List (String × String)) :
    ∀ (cache : Cache), (cacheKeys cache).Nodup →
      (cacheKeys (runWrites cache ops).2).Nodup := by
  induction ops with
  | nil => intro cache h; exact h
  | cons op rest ih =>
    obtain ⟨k0, v0⟩ := op
    intro cache h
    by_cases h0 : hasKey cache k0 = true
    · rw [runWrites_cons_occupied cache k0 v0 rest h0]
      exact ih cache h
    · rw [Bool.not_eq_true] at h0
      rw [runWrites_cons_free cache k0 v0 rest h0]
      apply ih
      simp only [cacheKeys, List.map_cons] at h ⊢
      rw [List.nodup_cons]
      refine ⟨fun hmem => ?_, h⟩
      have := (hasKey_iff cache k0).2 hmem
      rw [h0] at this
      cases this

/-! ### C1: uniqueness of pairing codes -/

/-- C1: for any interleaving of the atomic conditional writes performed by
concurrently executing `_build_response` calls, starting from a cache whose
keys are distinct, the final cache still has pairwise-distinct keys (at
most one live session per code-derived key), and any two writes that both
succeeded were for distinct pairing codes: a session is only produced after
its `set_if_not_exists` write has claimed its key, so no two
successfully-stored, unexpired sessions share a code. -/
theorem pairing_code_uniqueness (cache : Cache)
    (sessions : List (String × String))
    (hnd : (cacheKeys cache).Nodup) :
    (cacheKeys (runWrites cache (pairingWrites sessions)).2).Nodup ∧
    ∀ (i j : Nat) (hij : i < j) (hj : j < sessions.length),
      (runWrites cache (pairingWrites sessions)).1.getD i false = true →
      (runWrites cache (pairingWrites sessions)).1.getD j false = true →
      (sessions.get ⟨i, Nat.lt_trans hij hj⟩).1 ≠
        (sessions.get ⟨j, hj⟩).1 := by
  refine ⟨runWrites_nodup (pairingWrites sessions) cache hnd, ?_⟩
  intro i j hij hj hi hjs
  have hjp : j < (pairingWrites sessions).length := by
    simpa [pairingWrites] using hj
  have hkey := runWrites_success_pairwise (pairingWrites sessions) cache
    i j hij hjp hi hjs
  intro hEq
  apply hkey
  simp only [List.get_eq_getElem] at hEq
  simp only [pairingWrites, List.get_eq_getElem, List.getElem_map]
  rw [hEq]

/-- Witness for C1: two sessions with distinct codes, written from the
empty cache, both succeed and keep distinct codes and distinct keys. -/
theorem pairing_code_uniqueness_witness :
    (cacheKeys []).Nodup ∧
    ((cacheKeys (runWrites []
        (pairingWrites [("AAAAAA", "v"), ("CCCCCC", "w")])).2).Nodup ∧
      ∀ (i j : Nat) (hij : i < j)
        (hj : j < ([("AAAAAA", "v"), ("CCCCCC", "w")] :
          List (String × String)).length),
        (runWrites []
          (pairingWrites [("AAAAAA", "v"), ("CCCCCC", "w")])).1.getD i
            false = true →
        (runWrites []
          (pairingWrites [("AAAAAA", "v"), ("CCCCCC", "w")])).1.getD j
            false = true →
        (([("AAAAAA", "v"), ("CCCCCC", "w")] :
          List (String × String)).get ⟨i, Nat.lt_trans hij hj⟩).1 ≠
          (([("AAAAAA", "v"), ("CCCCCC", "w")] :
            List (String × String)).get ⟨j, hj⟩).1) :=
  ⟨by decide,
    pairing_code_uniqueness [] [("AAAAAA", "v"), ("CCCCCC", "w")]
      (by decide)⟩

/-! ### ConditionalStateCache lemmas -/

theorem lookupEntry_invalidate (s : CRState) (key : String) :
    lookupEntry (invalidate s key) key = none := by
  have hf : (invalidate s key).entries.find? (fun e => e.1 = key) = none := by
    rw [List.find?_eq_none]
    intro e he
    have hmem := List.of_mem_filter he
    simp only [decide_not, Bool.not_eq_true', decide_eq_false_iff_not] at hmem
    simp only [decide_eq_true_eq]
    exact hmem
  unfold lookupEntry
  rw [hf]

theorem lookupEntry_mem (s : CRState) (key : String) (pf : String × Nat)
    (h : lookupEntry s key = some pf) : (key, pf.1, pf.2) ∈ s.entries := by
  unfold lookupEntry at h
  cases hf : s.entries.find? (fun e => e.1 = key) with
  | none => rw [hf] at h; cases h
  | some e =>
    rw [hf] at h
    have he2 : e.2 = pf := by
      injection h
    have hmem := List.mem_of_find?_eq_some hf
    have hpred := List.find?_some hf
    simp only [decide_eq_true_eq] at hpred
    have : e = (key, pf.1, pf.2) := by
      obtain ⟨e1, e2, e3⟩ := e
      simp only at hpred he2
      rw [hpred, he2]
    rw [← this]
    exact hmem

/-! ### C6: change detection -/

/-- C6: after an `Invalidate` of a cached resource and a mutation of the
authoritative payload (the post-mutation source is `source'`), a `Read`
presenting the pre-invalidation fingerprint returns the full new payload —
not `NotModified` — under a fingerprint different from the
pre-invalidation one. -/
theorem change_detection (source' : String → String) (s : CRState)
    (key p : String) (fp : Nat) (hwf : WFState s)
    (h : lookupEntry s key = some (p, fp)) :
    ∃ fp', (read source' (invalidate s key) key (some fp)).1 =
      ReadResult.full (source' key) fp' ∧ fp' ≠ fp := by
  have hinv := lookupEntry_invalidate s key
  refine ⟨s.counter, ?_, ?_⟩
  · simp only [read, hinv]
    rfl
  · have hmem := lookupEntry_mem s key (p, fp) h
    have hlt := hwf (key, p, fp) hmem
    simp only at hlt
    omega

/-- Witness for C6: a single cached entry with fingerprint 0, counter 1;
after invalidation and a payload change the read returns the new payload
under a fresh fingerprint. -/
theorem change_detection_witness :
    WFState ⟨[("k", "old", 0)], 1⟩ ∧
    lookupEntry ⟨[("k", "old", 0)], 1⟩ "k" = some ("old", 0) ∧
    ∃ fp', (read (fun _ => "new") (invalidate ⟨[("k", "old", 0)], 1⟩ "k")
        "k" (some 0)).1 = ReadResult.full "new" fp' ∧ fp' ≠ 0 :=
  ⟨by unfold WFState; decide, by decide,
    change_detection (fun _ => "new") ⟨[("k", "old", 0)], 1⟩ "k" "old" 0
      (by unfold WFState; decide) (by decide)⟩

/-! ### C7: not-modified short circuit -/

/-- C7: a `Read` whose caller fingerprint is present and equal to the
stored fingerprint returns `NotModified` (a result constructor carrying no
payload body) and leaves the state unchanged. -/
theorem not_modified_short_circuit (source : String → String) (s : CRState)
    (key p : String) (fp : Nat) (h : lookupEntry s key = some (p, fp)) :
    read source s key (some fp) = (ReadResult.notModified, s) := by
  simp [read, h]

/-- Witness for C7 on a concrete cached entry. -/
theorem not_modified_short_circuit_witness :
    lookupEntry ⟨[("k", "p", 0)], 1⟩ "k" = some ("p", 0) ∧
    read (fun _ => "q") ⟨[("k", "p", 0)], 1⟩ "k" (some 0) =
      (ReadResult.notModified, (⟨[("k", "p", 0)], 1⟩ : CRState)) :=
  ⟨by decide,
    not_modified_short_circuit (fun _ => "q") ⟨[("k", "p", 0)], 1⟩ "k" "p" 0
      (by decide)⟩

/-! ### C8: idempotent read -/

/-- C8: two consecutive `Read` calls on the same resource key, with no
intervening `Invalidate` or payload mutation, that both return a full
payload return identical fingerprints. -/
theorem idempotent_read (source : String → String) (s : CRState)
    (key : String) (c₁ c₂ : Option Nat) (p₁ p₂ : String) (f₁ f₂ : Nat)
    (h₁ : (read source s key c₁).1 = ReadResult.full p₁ f₁)
    (h₂ : (read source (read source s key c₁).2 key c₂).1 =
      ReadResult.full p₂ f₂) :
    f₁ = f₂ := by
  cases hl : lookupEntry s key with
  | some pf =>
    by_cases hc : c₁ = some pf.2
    · simp [read, hl, hc] at h₁
    · simp only [read, hl, if_neg hc] at h₁ h₂
      obtain ⟨_, hf₁⟩ := ReadResult.full.injEq .. ▸ h₁
      by_cases hc2 : c₂ = some pf.2
      · simp [hl, hc2] at h₂
      · simp only [hl, if_neg hc2] at h₂
        obtain ⟨_, hf₂⟩ := ReadResult.full.injEq .. ▸ h₂
        rw [← hf₁, ← hf₂]
  | none =>
    simp only [read, hl] at h₁ h₂
    obtain ⟨_, hf₁⟩ := ReadResult.full.injEq .. ▸ h₁
    have hl1 : lookupEntry
        ⟨(key, source key, s.counter) :: s.entries, s.counter + 1⟩ key =
        some (source key, s.counter) := by
      simp [lookupEntry, List.find?]
    simp only [hl1] at h₂
    by_cases hc2 : c₂ = some s.counter
    · simp [hc2] at h₂
    · simp only [if_neg hc2] at h₂
      obtain ⟨_, hf₂⟩ := ReadResult.full.injEq .. ▸ h₂
      rw [← hf₁, ← hf₂]

/-- Witness for C8: an initially uncached key; the first read caches the
payload with fingerprint 0 and the second read returns the same
fingerprint. -/
theorem idempotent_read_witness :
    (read (fun _ => "p") (⟨[], 0⟩ : CRState) "k" none).1 =
      ReadResult.full "p" 0 ∧
    (read (fun _ => "p")
        (read (fun _ => "p") (⟨[], 0⟩ : CRState) "k" none).2 "k" none).1 =
      ReadResult.full "p" 0 ∧
    (0 : Nat) = 0 :=
  ⟨by decide, by decide,
    idempotent_read (fun _ => "p") ⟨[], 0⟩ "k" none none "p" "p" 0 0
      (by decide) (by decide)⟩

/-- Witness for C3: with the key for code `AAAAAA` already occupied, the
loop discards that draw and continues with the remaining draws. -/
theorem retry_on_collision_witness :
    hasKey [(DEVICE_PAIRING_CODE_KEY "AAAAAA", "x", ONE_DAY)]
      (DEVICE_PAIRING_CODE_KEY "AAAAAA") = true ∧
    buildResponseLoop "s" "t"
        [(DEVICE_PAIRING_CODE_KEY "AAAAAA", "x", ONE_DAY)]
        ("AAAAAA" :: ["CCCCCC"]) =
      buildResponseLoop "s" "t"
        [(DEVICE_PAIRING_CODE_KEY "AAAAAA", "x", ONE_DAY)] ["CCCCCC"] :=
  ⟨by decide,
    retry_on_collision.1 "s" "t"
      [(DEVICE_PAIRING_CODE_KEY "AAAAAA", "x", ONE_DAY)] "AAAAAA"
      ["CCCCCC"] (by decide)⟩

end Selene
